import Mathlib

/-!
Shallow embedding of the authentication and session-lifecycle subsystem of
the taiphanvan_backend service (Go), and proofs of the specification claims
about it.

Modelling conventions:
* A signed JWT string is represented by the data that determines it: the
  header algorithm, the claims payload, and the HMAC key used at signing
  (`Tok.signed alg claims key`).  Serialization is injective, so token-string
  equality is equality of this triple; an undecodable string is
  `Tok.malformed raw`.  Signature verification is modelled as comparing the
  signing key with the configured secret (perfect-MAC assumption).
* Unix times are `Int` seconds.
* The relational store is a `Store` record of the two auth tables
  (`refresh_tokens`, `blacklisted_tokens`) threaded explicitly through every
  operation.  A storage fault is injected with an explicit boolean where a
  claim is about failure behaviour.
* bcrypt is modelled as an injective tagging one-way function, matching its
  use as a black-box verify primitive.
-/

namespace TaiPhanVan

/-- The JWT claims payload carried by both token kinds: `Claims` in
`internal/middleware/auth.go` (user_id, role, token_type plus the registered
exp/iat claims).  `exp`/`iat` are optional because a JWT may omit them. -/
structure TokenClaims where
  userID : Nat
  role : String
  tokenType : String
  exp : Option Int
  iat : Option Int
  deriving DecidableEq, Repr

/-- A bearer-token string, represented by the data determining it. -/
inductive Tok where
  | malformed (raw : String)
  | signed (alg : String) (claims : TokenClaims) (key : String)
  deriving DecidableEq, Repr

/-- The HMAC family accepted by the `SigningMethodHMAC` type assertion in
both `validateToken` and the logout parse callback. -/
def hmacAlgs : List String := ["HS256", "HS384", "HS512"]

/-- JWT section of the application configuration (`internal/config`). -/
structure JWTConfig where
  secret : String
  accessExpiry : Int
  refreshExpiry : Int
  deriving DecidableEq, Repr

/-- The fields of the `User` row the auth core reads. -/
structure User where
  id : Nat
  email : String
  password : String
  role : String
  deriving DecidableEq, Repr

/-- A `refresh_tokens` row (`models.RefreshToken`). -/
structure RefreshTokenRow where
  token : Tok
  userID : Nat
  expiresAt : Int
  issuedAt : Int
  revoked : Bool
  deriving DecidableEq, Repr

/-- A `blacklisted_tokens` row (`models.BlacklistedToken`). -/
structure BlacklistedTokenRow where
  token : Tok
  expiresAt : Int
  deriving DecidableEq, Repr

/-- The auth tables of the relational store. -/
structure Store where
  refreshTokens : List RefreshTokenRow
  blacklistedTokens : List BlacklistedTokenRow
  deriving DecidableEq, Repr

/-- bcrypt.GenerateFromPassword, modelled as an injective one-way tag. -/
def bcryptHashOf (pw : String) : String := "bcrypt$2a$10$" ++ pw

/-- bcrypt.CompareHashAndPassword as a boolean verify primitive. -/
def bcryptCompareHashAndPassword (hash pw : String) : Bool :=
  hash == bcryptHashOf pw

/-- `mint`: the common shape of both token generators — an HS256 token whose
claims carry the subject, role, kind, `iat = issuedAt` and
`exp = issuedAt + ttl`, signed with the configured secret. -/
def mint (secret : String) (uid : Nat) (role kind : String) (ttl issuedAt : Int) : Tok :=
  Tok.signed "HS256" ⟨uid, role, kind, some (issuedAt + ttl), some issuedAt⟩ secret

/-- `generateAccessToken` in `internal/middleware/auth.go`: HS256 token with
kind "access" and TTL `cfg.accessExpiry`. -/
def generateAccessToken (cfg : JWTConfig) (now : Int) (u : User) : Tok :=
  Tok.signed "HS256"
    ⟨u.id, u.role, "access", some (now + cfg.accessExpiry), some now⟩ cfg.secret

/-- The signed value produced by `generateRefreshToken` (kind "refresh",
TTL `cfg.refreshExpiry`). -/
def generateRefreshTokenString (cfg : JWTConfig) (now : Int) (u : User) : Tok :=
  Tok.signed "HS256"
    ⟨u.id, u.role, "refresh", some (now + cfg.refreshExpiry), some now⟩ cfg.secret

/-- `generateRefreshToken`: mints the refresh token and persists its row
(`revoked = false`) in the store. -/
def generateRefreshToken (cfg : JWTConfig) (now : Int) (u : User) (store : Store) :
    Tok × Store :=
  let t := generateRefreshTokenString cfg now u
  (t, { store with refreshTokens :=
          store.refreshTokens ++ [⟨t, u.id, now + cfg.refreshExpiry, now, false⟩] })

/-- `validateToken` in `internal/middleware/auth.go` (jwt/v5
`ParseWithClaims`): reject a non-HMAC algorithm, verify the signature against
the configured secret, and reject an expired token (`exp` claim, when
present, must lie strictly in the future). -/
def validateToken (secret : String) (now : Int) (t : Tok) : Except String TokenClaims :=
  match t with
  | .malformed _ => .error "invalid token: token is malformed"
  | .signed alg claims key =>
    if ¬ hmacAlgs.contains alg then .error "invalid token: unexpected signing method"
    else if key ≠ secret then .error "invalid token: signature is invalid"
    else
      match claims.exp with
      | some e => if now < e then .ok claims else .error "invalid token: token is expired"
      | none => .ok claims

/-- The `jwt.Parse` call in the logout handler (legacy jwt package,
`MapClaims`): same HMAC and signature checks; `exp` and `iat` are verified
only when present. -/
def jwtParse (secret : String) (now : Int) (t : Tok) : Except String TokenClaims :=
  match t with
  | .malformed _ => .error "token contains an invalid number of segments"
  | .signed alg claims key =>
    if ¬ hmacAlgs.contains alg then .error "unexpected signing method"
    else if key ≠ secret then .error "signature is invalid"
    else if (match claims.exp with | some e => decide (e < now) | none => false) then
      .error "token is expired"
    else if (match claims.iat with | some i => decide (now < i) | none => false) then
      .error "token used before issued"
    else .ok claims

/-- The two token generators are instances of `mint`. -/
theorem generateAccessToken_eq_mint (cfg : JWTConfig) (now : Int) (u : User) :
    generateAccessToken cfg now u = mint cfg.secret u.id u.role "access" cfg.accessExpiry now := rfl

/-- The refresh generator is an instance of `mint`. -/
theorem generateRefreshTokenString_eq_mint (cfg : JWTConfig) (now : Int) (u : User) :
    generateRefreshTokenString cfg now u
      = mint cfg.secret u.id u.role "refresh" cfg.refreshExpiry now := rfl

/-- C5: decoding a minted token before its expiry returns exactly the minted
claims: same subject, role, kind, `exp = issuedAt + ttl`, `iat = issuedAt`;
and both source token generators are instances of `mint`. -/
theorem decode_mint_roundtrip (secret : String) (uid : Nat) (role kind : String)
    (ttl issuedAt now : Int) (h : now < issuedAt + ttl) :
    validateToken secret now (mint secret uid role kind ttl issuedAt)
      = .ok ⟨uid, role, kind, some (issuedAt + ttl), some issuedAt⟩
    ∧ (∀ cfg : JWTConfig, ∀ u : User, ∀ t : Int,
        generateAccessToken cfg t u = mint cfg.secret u.id u.role "access" cfg.accessExpiry t
        ∧ generateRefreshTokenString cfg t u
            = mint cfg.secret u.id u.role "refresh" cfg.refreshExpiry t) := by
  refine ⟨?_, fun cfg u t => ⟨rfl, rfl⟩⟩
  simp [validateToken, mint, hmacAlgs, h]

/-- C5 witness: round-trip at a concrete subject/role/kind/ttl. -/
theorem decode_mint_roundtrip_witness :
    (3 : Int) < 0 + 900
    ∧ validateToken "s" 3 (mint "s" 1 "user" "access" 900 0)
        = .ok ⟨1, "user", "access", some (0 + 900), some 0⟩ :=
  ⟨by decide, (decode_mint_roundtrip "s" 1 "user" "access" 900 0 3 (by decide)).1⟩

/-- The three observationally distinct shapes of an Authorization header,
as classified by `extractToken`: absent, present but not of the
two-part `Bearer <token>` shape, or carrying a token. -/
inductive HeaderParse where
  | noHeader
  | badFormat (raw : String)
  | bearer (tok : Tok)
  deriving DecidableEq, Repr

/-- `extractToken`: empty header and wrong `Bearer` shape are errors. -/
def extractToken : HeaderParse → Except String Tok
  | .noHeader => .error "authorization header is required"
  | .badFormat _ => .error "authorization header format must be Bearer \x7btoken\x7d"
  | .bearer t => .ok t

/-- A JSON error body together with its HTTP status code, as built by
`c.JSON(code, gin.H{status, error, message})`. -/
structure ApiError where
  httpStatus : Nat
  status : String
  error : String
  message : String
  deriving DecidableEq, Repr

/-- Outcome of the auth middleware: an aborting error response, or admission
with the identity placed in the request context. -/
inductive AuthOutcome where
  | reject (resp : ApiError)
  | allow (userID : Nat) (role : String)
  deriving DecidableEq, Repr

/-- The blacklist count query
`DB.Model(&BlacklistedToken{}).Where("token = ?", t).Count`. -/
def countBlacklisted (store : Store) (t : Tok) : Nat :=
  (store.blacklistedTokens.filter (fun b => b.token == t)).length

/-- `AuthMiddleware` in `internal/middleware/auth.go`: extract the bearer
token; fail closed on a blacklist-query storage error; reject a blacklisted
token; validate; require kind "access"; else answer with the claims'
identity.  The store is threaded through and returned unchanged. -/
def authMiddleware (cfg : JWTConfig) (now : Int) (store : Store)
    (blacklistQueryFault : Bool) (hdr : HeaderParse) : AuthOutcome × Store :=
  match extractToken hdr with
  | .error msg => (.reject ⟨401, "error", "Authorization required", msg⟩, store)
  | .ok tokenString =>
    if blacklistQueryFault then
      (.reject ⟨500, "error", "Authentication error", "Failed to validate token"⟩, store)
    else if countBlacklisted store tokenString > 0 then
      (.reject ⟨401, "error", "Token revoked",
        "This token has been revoked. Please log in again"⟩, store)
    else
      match validateToken cfg.secret now tokenString with
      | .error msg => (.reject ⟨401, "error", "Invalid token", msg⟩, store)
      | .ok claims =>
        if claims.tokenType ≠ "access" then
          (.reject ⟨401, "error", "Invalid token type",
            "Refresh token cannot be used for authentication"⟩, store)
        else (.allow claims.userID claims.role, store)

/-- The abstract decisions of the spec's Auth-Gate procedure (§4.5), one
label per step that can end the procedure. -/
inductive GateDecision where
  | unauthHeader
  | storeError
  | unauthRevoked
  | unauthDecode
  | unauthWrongKind
  | granted (userID : Nat) (role : String)
  deriving DecidableEq, Repr

/-- Map a middleware outcome to the spec's decision label, by the error it
reports. -/
def decisionOf : AuthOutcome → GateDecision
  | .allow u r => .granted u r
  | .reject resp =>
    if resp.error == "Authorization required" then .unauthHeader
    else if resp.error == "Authentication error" then .storeError
    else if resp.error == "Token revoked" then .unauthRevoked
    else if resp.error == "Invalid token" then .unauthDecode
    else .unauthWrongKind

/-- Spec-side decision procedure of §4.5, written from the spec's words for
refinement comparison: 1. missing/malformed header rejects; 2. the blacklist
check runs before any decode, failing closed on a storage error and
rejecting a blacklisted token; 3. decode failure rejects; 4. kind must be
"access"; 5. otherwise the claims' userID and role are exposed. -/
def authGateSpecProcedure (cfg : JWTConfig) (now : Int) (store : Store)
    (storageFault : Bool) (hdr : HeaderParse) : GateDecision :=
  match hdr with
  | .noHeader => .unauthHeader
  | .badFormat _ => .unauthHeader
  | .bearer t =>
    if storageFault then .storeError
    else if countBlacklisted store t > 0 then .unauthRevoked
    else
      match validateToken cfg.secret now t with
      | .error _ => .unauthDecode
      | .ok claims =>
        if claims.tokenType = "access" then .granted claims.userID claims.role
        else .unauthWrongKind

/-- C3: the middleware implements exactly the spec's decision procedure in
the spec's order — in particular a blacklisted token is rejected as revoked
before any decode is attempted and a blacklist-query storage error fails
closed — and the gate never writes to the store. -/
theorem authMiddleware_implements_gate_procedure (cfg : JWTConfig) (now : Int)
    (store : Store) (fault : Bool) (hdr : HeaderParse) :
    decisionOf (authMiddleware cfg now store fault hdr).1
        = authGateSpecProcedure cfg now store fault hdr
    ∧ (authMiddleware cfg now store fault hdr).2 = store := by
  cases hdr with
  | noHeader => simp [authMiddleware, authGateSpecProcedure, extractToken, decisionOf]
  | badFormat raw => simp [authMiddleware, authGateSpecProcedure, extractToken, decisionOf]
  | bearer t =>
    simp only [authMiddleware, authGateSpecProcedure, extractToken]
    cases fault with
    | true => simp [decisionOf]
    | false =>
      simp only [Bool.false_eq_true, if_false]
      by_cases hb : countBlacklisted store t > 0
      · simp [hb, decisionOf]
      · simp only [hb, if_false]
        cases hv : validateToken cfg.secret now t with
        | error msg =>
          have hmsg : msg ≠ "Authorization required" ∧ msg ≠ "Authentication error"
              ∧ msg ≠ "Token revoked" := by
            cases t with
            | malformed raw =>
              simp only [validateToken, Except.error.injEq] at hv
              subst hv; decide
            | signed alg claims key =>
              simp only [validateToken] at hv
              split at hv
              · simp only [Except.error.injEq] at hv
                subst hv; decide
              · split at hv
                · simp only [Except.error.injEq] at hv
                  subst hv; decide
                · split at hv
                  · split at hv
                    · exact absurd hv (by simp)
                    · simp only [Except.error.injEq] at hv
                      subst hv; decide
                  · exact absurd hv (by simp)
          simp [decisionOf, hmsg.1, hmsg.2.1, hmsg.2.2]
        | ok claims =>
          by_cases hk : claims.tokenType = "access"
          · simp [hk, decisionOf]
          · simp [hk, decisionOf]

/-- A parsed login request body (`models.LoginRequest`). -/
structure LoginRequest where
  email : String
  password : String
  deriving DecidableEq, Repr

/-- The success body of login/refresh (`models.TokenResponse`). -/
structure TokenResponse where
  accessToken : Tok
  refreshToken : Option Tok
  tokenType : String
  expiresIn : Int
  deriving DecidableEq, Repr

/-- Outcome of the login handler. -/
inductive LoginResult where
  | failure (resp : ApiError)
  | success (resp : TokenResponse)
  deriving DecidableEq, Repr

/-- `DB.Where("email = ?", email).First(&user)`. -/
def findUserByEmail (users : List User) (email : String) : Option User :=
  users.find? (fun u => u.email == email)

/-- `DB.First(&user, id)`. -/
def findUserByID (users : List User) (uid : Nat) : Option User :=
  users.find? (fun u => u.id == uid)

/-- The `Login` handler: look up the user by email (not found → generic
invalid-credentials failure), verify the bcrypt hash (mismatch → the same
failure), else mint the token pair, persist the refresh row, and answer with
both tokens and the access TTL in seconds. -/
def login (cfg : JWTConfig) (now : Int) (users : List User) (store : Store)
    (req : LoginRequest) : LoginResult × Store :=
  match findUserByEmail users req.email with
  | none =>
    (.failure ⟨401, "error", "Authentication failed", "Invalid credentials"⟩, store)
  | some user =>
    if ¬ bcryptCompareHashAndPassword user.password req.password then
      (.failure ⟨401, "error", "Authentication failed", "Invalid credentials"⟩, store)
    else
      let accessToken := generateAccessToken cfg now user
      let p := generateRefreshToken cfg now user store
      (.success ⟨accessToken, some p.1, "Bearer", cfg.accessExpiry⟩, p.2)

/-- C2: a login with a nonexistent email and a login with an existing email
but mismatching password produce byte-for-byte identical failure responses
(the generic invalid-credentials body), so the outcome reveals which check
failed to nobody. -/
theorem login_failure_indistinguishable
    (cfg₁ : JWTConfig) (now₁ : Int) (users₁ : List User) (store₁ : Store)
    (req₁ : LoginRequest)
    (cfg₂ : JWTConfig) (now₂ : Int) (users₂ : List User) (store₂ : Store)
    (req₂ : LoginRequest) (u : User)
    (h₁ : findUserByEmail users₁ req₁.email = none)
    (h₂ : findUserByEmail users₂ req₂.email = some u)
    (h₃ : bcryptCompareHashAndPassword u.password req₂.password = false) :
    (login cfg₁ now₁ users₁ store₁ req₁).1 = (login cfg₂ now₂ users₂ store₂ req₂).1
    ∧ (login cfg₁ now₁ users₁ store₁ req₁).1
        = .failure ⟨401, "error", "Authentication failed", "Invalid credentials"⟩ := by
  simp [login, h₁, h₂, h₃]

/-- C2 witness: a concrete nonexistent email versus a concrete existing
email with a wrong password. -/
theorem login_failure_indistinguishable_witness :
    findUserByEmail [⟨1, "a@b.c", bcryptHashOf "pw", "user"⟩] "x@y.z" = none
    ∧ findUserByEmail [⟨1, "a@b.c", bcryptHashOf "pw", "user"⟩] "a@b.c"
        = some ⟨1, "a@b.c", bcryptHashOf "pw", "user"⟩
    ∧ bcryptCompareHashAndPassword (bcryptHashOf "pw") "wrong" = false
    ∧ (login ⟨"s", 900, 604800⟩ 0 [⟨1, "a@b.c", bcryptHashOf "pw", "user"⟩] ⟨[], []⟩
          ⟨"x@y.z", "pw"⟩).1
        = (login ⟨"s", 900, 604800⟩ 0 [⟨1, "a@b.c", bcryptHashOf "pw", "user"⟩] ⟨[], []⟩
          ⟨"a@b.c", "wrong"⟩).1 :=
  ⟨by decide, by decide, by decide,
    (login_failure_indistinguishable ⟨"s", 900, 604800⟩ 0
      [⟨1, "a@b.c", bcryptHashOf "pw", "user"⟩] ⟨[], []⟩ ⟨"x@y.z", "pw"⟩
      ⟨"s", 900, 604800⟩ 0 [⟨1, "a@b.c", bcryptHashOf "pw", "user"⟩] ⟨[], []⟩
      ⟨"a@b.c", "wrong"⟩ ⟨1, "a@b.c", bcryptHashOf "pw", "user"⟩
      (by decide) (by decide) (by decide)).1⟩

/-- The lookup
`DB.Where("token = ? AND revoked = ?", t, false).First(&dbToken)`. -/
def findActiveRefresh (store : Store) (t : Tok) : Option RefreshTokenRow :=
  store.refreshTokens.find? (fun r => r.token == t && r.revoked == false)

/-- `RefreshAccessToken` in `internal/middleware/auth.go`: validate the
token, require kind "refresh", find the non-revoked row, reject a past
expiry, look up the user, and mint a fresh access token.  The store is
threaded through unchanged — this operation performs no write. -/
def refreshAccessToken (cfg : JWTConfig) (now : Int) (users : List User)
    (store : Store) (refreshToken : Tok) : Except String Tok × Store :=
  match validateToken cfg.secret now refreshToken with
  | .error msg => (.error ("invalid refresh token: " ++ msg), store)
  | .ok claims =>
    if claims.tokenType ≠ "refresh" then (.error "token is not a refresh token", store)
    else
      match findActiveRefresh store refreshToken with
      | none => (.error "refresh token has been revoked or does not exist", store)
      | some dbToken =>
        if dbToken.expiresAt < now then (.error "refresh token has expired", store)
        else
          match findUserByID users dbToken.userID with
          | none => (.error "user not found", store)
          | some user => (.ok (generateAccessToken cfg now user), store)

/-- C4: Refresh never writes to the store — the refresh-token rows (and the
blacklist) are exactly those before the call, so no rotation, revocation or
expiry change happens — and consequently an immediately repeated Refresh
with the same token returns the same result. -/
theorem refreshAccessToken_store_unchanged (cfg : JWTConfig) (now : Int)
    (users : List User) (store : Store) (t : Tok) :
    (refreshAccessToken cfg now users store t).2 = store
    ∧ refreshAccessToken cfg now users (refreshAccessToken cfg now users store t).2 t
        = refreshAccessToken cfg now users store t := by
  have hframe : (refreshAccessToken cfg now users store t).2 = store := by
    simp only [refreshAccessToken]
    cases validateToken cfg.secret now t with
    | error msg => rfl
    | ok claims =>
      by_cases hk : claims.tokenType = "refresh"
      · simp only [hk]
        cases findActiveRefresh store t with
        | none => simp
        | some dbToken =>
          by_cases he : dbToken.expiresAt < now
          · simp [he]
          · simp only [he, if_false]
            cases findUserByID users dbToken.userID with
            | none => simp
            | some user => simp
      · simp [hk]
  exact ⟨hframe, by rw [hframe]⟩

/-- `RevokeAllUserRefreshTokens`: one bulk
`UPDATE refresh_tokens SET revoked = true WHERE user_id = ? AND revoked = false`. -/
def revokeAllUserRefreshTokens (store : Store) (userID : Nat) : Store :=
  { store with refreshTokens := store.refreshTokens.map (fun r =>
      if r.userID == userID && r.revoked == false then { r with revoked := true } else r) }

/-- The per-row effect of the bulk update underlying
`revokeAllUserRefreshTokens`: a row of the targeted user ends revoked with
its other columns intact, any other row is unchanged. -/
theorem revokeAll_row_cases (u : Nat) (r : RefreshTokenRow) :
    (r.userID = u →
      (if r.userID == u && r.revoked == false then { r with revoked := true } else r)
        = { r with revoked := true })
    ∧ (r.userID ≠ u →
      (if r.userID == u && r.revoked == false then { r with revoked := true } else r)
        = r) := by
  constructor
  · intro hu
    by_cases hr : r.revoked
    · cases r; simp_all
    · cases r; simp_all
  · intro hu; cases r; simp_all

/-- C7: after revoking all tokens of user `u`, every row of `u` is revoked
(previously-active ones by the update, previously-revoked ones staying
revoked) with all its other columns intact, every row of any other user is
entirely unchanged, the row count is unchanged, and the blacklist table is
untouched. -/
theorem revokeAllUserRefreshTokens_spec (store : Store) (u : Nat) (i : Nat)
    (h : i < store.refreshTokens.length) :
    (revokeAllUserRefreshTokens store u).refreshTokens.length
        = store.refreshTokens.length
    ∧ (revokeAllUserRefreshTokens store u).blacklistedTokens = store.blacklistedTokens
    ∧ ((store.refreshTokens.get ⟨i, h⟩).userID = u →
        (revokeAllUserRefreshTokens store u).refreshTokens.get
            ⟨i, by simpa [revokeAllUserRefreshTokens] using h⟩
          = { store.refreshTokens.get ⟨i, h⟩ with revoked := true })
    ∧ ((store.refreshTokens.get ⟨i, h⟩).userID ≠ u →
        (revokeAllUserRefreshTokens store u).refreshTokens.get
            ⟨i, by simpa [revokeAllUserRefreshTokens] using h⟩
          = store.refreshTokens.get ⟨i, h⟩) := by
  have hmap : (revokeAllUserRefreshTokens store u).refreshTokens.get
      ⟨i, by simpa [revokeAllUserRefreshTokens] using h⟩
      = (fun r => if r.userID == u && r.revoked == false
            then { r with revoked := true } else r)
          (store.refreshTokens.get ⟨i, h⟩) := by
    simp [revokeAllUserRefreshTokens, List.get_eq_getElem]
  refine ⟨by simp [revokeAllUserRefreshTokens], rfl, ?_, ?_⟩
  · intro hu
    rw [hmap]
    exact (revokeAll_row_cases u (store.refreshTokens.get ⟨i, h⟩)).1 hu
  · intro hu
    rw [hmap]
    exact (revokeAll_row_cases u (store.refreshTokens.get ⟨i, h⟩)).2 hu

/-- C7 witness: a two-row store, one row per user; user 1's active row is
revoked while user 2's row is untouched. -/
theorem revokeAllUserRefreshTokens_spec_witness :
    (0 : Nat) < ([⟨Tok.malformed "a", 1, 100, 0, false⟩,
        ⟨Tok.malformed "b", 2, 100, 0, false⟩] : List RefreshTokenRow).length
    ∧ (revokeAllUserRefreshTokens
        ⟨[⟨Tok.malformed "a", 1, 100, 0, false⟩,
          ⟨Tok.malformed "b", 2, 100, 0, false⟩], []⟩ 1).refreshTokens.length = 2 :=
  ⟨by decide,
    by
      have := (revokeAllUserRefreshTokens_spec
        ⟨[⟨Tok.malformed "a", 1, 100, 0, false⟩,
          ⟨Tok.malformed "b", 2, 100, 0, false⟩], []⟩ 1 0 (by decide)).1
      simpa using this⟩

/-- The body of the logout transaction: count rows for the token; if one
already exists return success without inserting, otherwise insert the
blacklist row. -/
def blacklistTokenTx (store : Store) (t : Tok) (expiresAt : Int) : Store :=
  if countBlacklisted store t > 0 then store
  else { store with blacklistedTokens := store.blacklistedTokens ++ [⟨t, expiresAt⟩] }

/-- Outcome of the logout handler. -/
inductive LogoutResult where
  | failure (resp : ApiError)
  | success
  deriving DecidableEq, Repr

/-- The `Logout` handler: require the context userID set by the middleware;
extract the bearer token; if `revoke_all` was requested, bulk-revoke the
caller's refresh tokens (committing immediately; a failed bulk update
applies nothing); then parse the token (legacy `jwt.Parse`), defaulting the
blacklist expiry to now + 24h when the claims carry no numeric `exp`; and
finally run the count-then-insert blacklist transaction, which a storage
fault rolls back whole. -/
def logout (cfg : JWTConfig) (now : Int) (userID : Option Nat) (hdr : HeaderParse)
    (revokeAllFlag : Bool) (revokeFault : Bool) (txFault : Bool) (store : Store) :
    LogoutResult × Store :=
  match userID with
  | none => (.failure ⟨401, "error", "Unauthorized", "Authentication required"⟩, store)
  | some uid =>
    match extractToken hdr with
    | .error msg => (.failure ⟨400, "error", "No token provided", msg⟩, store)
    | .ok tokenString =>
      if revokeAllFlag && revokeFault then
        (.failure ⟨500, "error", "Server error", "Failed to revoke all tokens"⟩, store)
      else
        let store1 := if revokeAllFlag then revokeAllUserRefreshTokens store uid else store
        match jwtParse cfg.secret now tokenString with
        | .error _ =>
          (.failure ⟨401, "error", "Invalid token",
            "The provided token is invalid or malformed"⟩, store1)
        | .ok claims =>
          let expiresAt := match claims.exp with
            | some e => e
            | none => now + 24 * 3600
          if txFault then
            (.failure ⟨500, "error", "Database operation failed",
              "An error occurred while processing your logout request"⟩, store1)
          else (.success, blacklistTokenTx store1 tokenString expiresAt)

/-- C6: blacklisting is idempotent.  After one call `isBlacklisted` holds;
a second call with the same token is a no-op (so it cannot err on the unique
index), the row count for the token ends at `max count 1` — in particular
exactly one row when none existed — and a second logout carrying the same
already-blacklisted token still answers success. -/
theorem countBlacklisted_tx (store : Store) (t : Tok) (e : Int) :
    countBlacklisted (blacklistTokenTx store t e) t
      = max (countBlacklisted store t) 1 := by
  by_cases hb : countBlacklisted store t > 0
  · simp only [blacklistTokenTx, hb, if_true]
    omega
  · have hz : countBlacklisted store t = 0 := Nat.eq_zero_of_not_pos hb
    simp only [blacklistTokenTx, hb, if_false]
    simp only [countBlacklisted] at hz ⊢
    simp [List.filter_append, hz]

theorem blacklistTokenTx_noop (store : Store) (t : Tok) (e e' : Int) :
    blacklistTokenTx (blacklistTokenTx store t e) t e' = blacklistTokenTx store t e := by
  have h1 : countBlacklisted (blacklistTokenTx store t e) t > 0 := by
    rw [countBlacklisted_tx]; omega
  generalize hS : blacklistTokenTx store t e = S at h1 ⊢
  simp [blacklistTokenTx, h1]

theorem blacklist_idempotent (store : Store) (t : Tok) (e e' : Int)
    (cfg : JWTConfig) (now : Int) (uid : Nat) (claims : TokenClaims)
    (htok : jwtParse cfg.secret now t = .ok claims) :
    countBlacklisted (blacklistTokenTx store t e) t ≥ 1
    ∧ blacklistTokenTx (blacklistTokenTx store t e) t e' = blacklistTokenTx store t e
    ∧ countBlacklisted (blacklistTokenTx (blacklistTokenTx store t e) t e') t
        = max (countBlacklisted store t) 1
    ∧ (logout cfg now (some uid) (.bearer t) false false false
        (blacklistTokenTx store t e)).1 = .success := by
  refine ⟨?_, blacklistTokenTx_noop store t e e', ?_, ?_⟩
  · rw [countBlacklisted_tx]; omega
  · rw [blacklistTokenTx_noop, countBlacklisted_tx]
  · simp [logout, extractToken, htok]

/-- C6 witness: double logout of a concrete valid token starting from an
empty blacklist. -/
theorem blacklist_idempotent_witness :
    jwtParse "s" 0 (Tok.signed "HS256" ⟨1, "user", "access", some 900, some 0⟩ "s")
        = .ok ⟨1, "user", "access", some 900, some 0⟩
    ∧ countBlacklisted
        (blacklistTokenTx
          (blacklistTokenTx ⟨[], []⟩
            (Tok.signed "HS256" ⟨1, "user", "access", some 900, some 0⟩ "s") 900)
          (Tok.signed "HS256" ⟨1, "user", "access", some 900, some 0⟩ "s") 900)
        (Tok.signed "HS256" ⟨1, "user", "access", some 900, some 0⟩ "s")
      = max (countBlacklisted ⟨[], []⟩
          (Tok.signed "HS256" ⟨1, "user", "access", some 900, some 0⟩ "s")) 1 :=
  ⟨rfl,
    (blacklist_idempotent ⟨[], []⟩
      (Tok.signed "HS256" ⟨1, "user", "access", some 900, some 0⟩ "s") 900 900
      ⟨"s", 900, 604800⟩ 0 1 ⟨1, "user", "access", some 900, some 0⟩
      rfl).2.2.1⟩

/-- C1 counterexample: a logout with `revoke_all = true` whose bearer token
fails to parse.  The handler revokes the caller's refresh tokens before it
parses the token, outside the blacklist transaction: the call fails with the
invalid-token response, yet the refresh row is left revoked while no
blacklist row was written — the two halves are not applied atomically. -/
theorem logout_cascade_not_atomic_counterexample :
    (logout ⟨"s", 900, 604800⟩ 50 (some 1) (.bearer (Tok.malformed "x")) true false false
        ⟨[⟨Tok.malformed "rt", 1, 1000, 0, false⟩], []⟩).1
      = .failure ⟨401, "error", "Invalid token", "The provided token is invalid or malformed"⟩
    ∧ (logout ⟨"s", 900, 604800⟩ 50 (some 1) (.bearer (Tok.malformed "x")) true false false
        ⟨[⟨Tok.malformed "rt", 1, 1000, 0, false⟩], []⟩).2.refreshTokens
      = [⟨Tok.malformed "rt", 1, 1000, 0, true⟩]
    ∧ (logout ⟨"s", 900, 604800⟩ 50 (some 1) (.bearer (Tok.malformed "x")) true false false
        ⟨[⟨Tok.malformed "rt", 1, 1000, 0, false⟩], []⟩).2.blacklistedTokens
      = [] := ⟨rfl, rfl, rfl⟩

/-- C1 amended: in a cascading logout the bulk revoke is applied first and
commits on its own; only the blacklist check-and-insert runs inside a
transaction.  If the token fails to parse, or the blacklist transaction
fails, the response is an error and the blacklist is unchanged, but the
cascade revoke remains applied; on success both halves are applied. -/
theorem logout_cascade_halves (cfg : JWTConfig) (now : Int) (uid : Nat) (t : Tok)
    (store : Store) :
    ((∃ msg, jwtParse cfg.secret now t = .error msg) →
      logout cfg now (some uid) (.bearer t) true false false store
        = (.failure ⟨401, "error", "Invalid token",
            "The provided token is invalid or malformed"⟩,
           revokeAllUserRefreshTokens store uid))
    ∧ (∀ claims, jwtParse cfg.secret now t = .ok claims →
        logout cfg now (some uid) (.bearer t) true false true store
          = (.failure ⟨500, "error", "Database operation failed",
              "An error occurred while processing your logout request"⟩,
             revokeAllUserRefreshTokens store uid))
    ∧ (∀ claims, jwtParse cfg.secret now t = .ok claims →
        logout cfg now (some uid) (.bearer t) true false false store
          = (.success, blacklistTokenTx (revokeAllUserRefreshTokens store uid) t
              (match claims.exp with | some e => e | none => now + 24 * 3600))) := by
  refine ⟨?_, ?_, ?_⟩
  · rintro ⟨msg, hmsg⟩
    simp [logout, extractToken, hmsg]
  · intro claims hok
    simp [logout, extractToken, hok]
  · intro claims hok
    simp [logout, extractToken, hok]

/-- C1 amended witness: a concrete failed-parse cascading logout keeps the
revoke applied and the blacklist empty. -/
theorem logout_cascade_halves_witness :
    (∃ msg, jwtParse "s" 50 (Tok.malformed "x") = .error msg)
    ∧ logout ⟨"s", 900, 604800⟩ 50 (some 1) (.bearer (Tok.malformed "x")) true false false
        ⟨[⟨Tok.malformed "rt", 1, 1000, 0, false⟩], []⟩
      = (.failure ⟨401, "error", "Invalid token",
            "The provided token is invalid or malformed"⟩,
         revokeAllUserRefreshTokens ⟨[⟨Tok.malformed "rt", 1, 1000, 0, false⟩], []⟩ 1) :=
  ⟨⟨"token contains an invalid number of segments", rfl⟩,
    (logout_cascade_halves ⟨"s", 900, 604800⟩ 50 1 (Tok.malformed "x")
      ⟨[⟨Tok.malformed "rt", 1, 1000, 0, false⟩], []⟩).1
      ⟨"token contains an invalid number of segments", rfl⟩⟩

/-- C10: a logout bearer token with a valid HMAC signature whose claims lack
a numeric `exp` still gets blacklisted, with the row's expiry silently
defaulted to the logout time plus 24 hours. -/
theorem logout_missing_exp_defaults (cfg : JWTConfig) (now : Int) (uid u2 : Nat)
    (role kind : String) (iat : Option Int) (store : Store)
    (hiat : (match iat with | some i => decide (now < i) | none => false) = false)
    (hnew : countBlacklisted store
        (Tok.signed "HS256" ⟨u2, role, kind, none, iat⟩ cfg.secret) = 0) :
    logout cfg now (some uid)
        (.bearer (Tok.signed "HS256" ⟨u2, role, kind, none, iat⟩ cfg.secret))
        false false false store
      = (.success, { store with blacklistedTokens := store.blacklistedTokens
          ++ [⟨Tok.signed "HS256" ⟨u2, role, kind, none, iat⟩ cfg.secret,
              now + 24 * 3600⟩] }) := by
  simp [logout, extractToken, jwtParse, hmacAlgs, hiat, blacklistTokenTx, hnew]

/-- C10 witness: a concrete exp-less token is blacklisted until now + 86400. -/
theorem logout_missing_exp_defaults_witness :
    (match (none : Option Int) with | some i => decide ((100 : Int) < i) | none => false)
        = false
    ∧ countBlacklisted ⟨[], []⟩
        (Tok.signed "HS256" ⟨1, "user", "access", none, none⟩ "s") = 0
    ∧ logout ⟨"s", 900, 604800⟩ 100 (some 1)
        (.bearer (Tok.signed "HS256" ⟨1, "user", "access", none, none⟩ "s"))
        false false false ⟨[], []⟩
      = (.success, ⟨[], [⟨Tok.signed "HS256" ⟨1, "user", "access", none, none⟩ "s",
          100 + 24 * 3600⟩]⟩) :=
  ⟨rfl, rfl, logout_missing_exp_defaults ⟨"s", 900, 604800⟩ 100 1 1 "user" "access"
    none ⟨[], []⟩ rfl rfl⟩

/-- `CleanupExpiredTokens` in `pkg/utils/utils.go`: one sweep deletes the
blacklist rows with `expires_at < now` and the refresh rows with
`expires_at < now OR revoked = true`. -/
def cleanupExpiredTokens (now : Int) (store : Store) : Store :=
  { refreshTokens := store.refreshTokens.filter
      (fun r => !(decide (r.expiresAt < now) || r.revoked)),
    blacklistedTokens := store.blacklistedTokens.filter
      (fun b => !(decide (b.expiresAt < now))) }

/-- C8: one sweep retains exactly the blacklist rows not yet expired and
exactly the refresh rows neither expired nor revoked; hence when `now` is
past every seeded row's expiry the store ends empty. -/
theorem cleanupExpiredTokens_spec (now : Int) (store : Store) :
    (∀ b, b ∈ (cleanupExpiredTokens now store).blacklistedTokens ↔
        b ∈ store.blacklistedTokens ∧ ¬ b.expiresAt < now)
    ∧ (∀ r, r ∈ (cleanupExpiredTokens now store).refreshTokens ↔
        r ∈ store.refreshTokens ∧ ¬ (r.expiresAt < now ∨ r.revoked = true))
    ∧ ((∀ b ∈ store.blacklistedTokens, b.expiresAt < now) →
       (∀ r ∈ store.refreshTokens, r.expiresAt < now) →
       cleanupExpiredTokens now store = ⟨[], []⟩) := by
  refine ⟨?_, ?_, ?_⟩
  · intro b
    simp [cleanupExpiredTokens, List.mem_filter]
  · intro r
    simp [cleanupExpiredTokens, List.mem_filter]
  · intro hball hrall
    simp only [cleanupExpiredTokens, Store.mk.injEq]
    constructor
    · rw [List.filter_eq_nil_iff]
      intro r hr
      simp [hrall r hr]
    · rw [List.filter_eq_nil_iff]
      intro b hb
      simp [hball b hb]

/-- C8 witness: a seeded store whose rows are all past expiry is emptied by
one sweep at time 10. -/
theorem cleanupExpiredTokens_spec_witness :
    (∀ b ∈ ([⟨Tok.malformed "b", 5⟩] : List BlacklistedTokenRow), b.expiresAt < 10)
    ∧ (∀ r ∈ ([⟨Tok.malformed "r", 1, 5, 0, false⟩] : List RefreshTokenRow),
        r.expiresAt < 10)
    ∧ cleanupExpiredTokens 10
        ⟨[⟨Tok.malformed "r", 1, 5, 0, false⟩], [⟨Tok.malformed "b", 5⟩]⟩ = ⟨[], []⟩ :=
  ⟨by decide, by decide,
    (cleanupExpiredTokens_spec 10
      ⟨[⟨Tok.malformed "r", 1, 5, 0, false⟩], [⟨Tok.malformed "b", 5⟩]⟩).2.2
      (by decide) (by decide)⟩

/-- Decode of a signed token, when it succeeds, returns that token's own
claims payload. -/
theorem validateToken_ok_claims (s : String) (n : Int) (a : String)
    (c : TokenClaims) (k : String) (c' : TokenClaims)
    (h : validateToken s n (Tok.signed a c k) = .ok c') : c' = c := by
  simp only [validateToken] at h
  split at h
  · simp at h
  · split at h
    · simp at h
    · split at h
      · split at h
        · simp only [Except.ok.injEq] at h
          exact h.symm
        · simp at h
      · simp only [Except.ok.injEq] at h
        exact h.symm

/-- C9: kind isolation.  A token minted with kind "refresh" is never
accepted by the auth middleware (whatever the signature key, expiry,
blacklist contents or storage fault), and a token minted with kind "access"
never succeeds in the refresh operation. -/
theorem mint_kind_isolation (cfg : JWTConfig) (now : Int) (store : Store)
    (fault : Bool) (secret role : String) (uid : Nat) (ttl issuedAt : Int)
    (users : List User) (cfg2 : JWTConfig) (now2 : Int) (store2 : Store) :
    (∀ u r, (authMiddleware cfg now store fault
        (.bearer (mint secret uid role "refresh" ttl issuedAt))).1 ≠ .allow u r)
    ∧ (∀ c, (refreshAccessToken cfg2 now2 users store2
        (mint secret uid role "access" ttl issuedAt)).1 ≠ .ok c) := by
  constructor
  · intro u r hgrant
    simp only [authMiddleware, extractToken] at hgrant
    split at hgrant
    · simp at hgrant
    · split at hgrant
      · simp at hgrant
      · split at hgrant
        · simp at hgrant
        · rename_i claims heq
          have hc := validateToken_ok_claims _ _ _ _ _ _ heq
          subst hc
          simp [mint] at hgrant
  · intro c hok
    simp only [refreshAccessToken] at hok
    split at hok
    · simp at hok
    · rename_i claims heq
      have hc := validateToken_ok_claims _ _ _ _ _ _ heq
      subst hc
      simp only [mint] at hok
      split at hok
      · simp at hok
      · rename_i hcond
        simp at hcond

/-- C9 witness: the concrete minted refresh token is not accepted by the
gate, and the concrete minted access token fails the refresh operation. -/
theorem mint_kind_isolation_witness :
    (authMiddleware ⟨"s", 900, 604800⟩ 0 ⟨[], []⟩ false
        (.bearer (mint "s" 1 "user" "refresh" 900 0))).1 ≠ .allow 1 "user" :=
  (mint_kind_isolation ⟨"s", 900, 604800⟩ 0 ⟨[], []⟩ false "s" "user" 1 900 0
    [] ⟨"s", 900, 604800⟩ 0 ⟨[], []⟩).1 1 "user"

end TaiPhanVan
